import Mathlib

/-!
Shallow embedding of the `win` crate of the LogicSimulation repository
(`src/win/src/lib.rs` and `src/win/src/win_raw.rs`), a thin type-safe
wrapper layer over a handful of Win32 entry points, together with proofs
of the specified properties.

Modelling conventions:
* Machine integers (`DWORD` = u32, `ATOM` = u16, `UINT` = u32) are `Nat`;
  no arithmetic in the source can overflow (the only operations are
  equality tests against the sentinel 0 and bitwise-or of constants), so
  no explicit reduction mod 2^w is needed.
* Raw pointers of handle kind (`HANDLE` = `*mut c_void` and its aliases)
  are `Nat` addresses, with 0 the null pointer.
* Raw pointers to C strings (`LPCSTR` = `*const u8`) are the inductive
  `CPtr`: either the null pointer or a pointer to the first byte of a
  given string (the source never does pointer arithmetic on them, so a
  pointer value is determined by what it points at).
* A `WNDPROC` function pointer is a `Nat` code address wrapped in
  `Option` (the source never calls through it).
* The external Win32 functions declared in `win_raw.rs` are an
  environment record `NativeEnv`: one field per entry point, giving the
  raw value that call returns. `GetLastError` takes no argument, so it
  is a single `DWORD`.
* Rust functions that can panic return `Option` (`none` = panic).
* `register_class` takes the descriptor by shared reference (`&WinClass`)
  in the source; the embedding threads the descriptor through and
  returns it alongside the result, so frame properties are statable.
* The `println!` diagnostics inside `WinClass::convert` and
  `create_window` are incidental instrumentation with no effect on any
  returned value; the embedding elides them.
-/

namespace Win

/-- Win32 integer type aliases from `win_raw.rs`. -/
abbrev DWORD := Nat

abbrev UINT := Nat

abbrev ATOM := Nat

/-- `HANDLE = *mut c_void`, modelled as a `Nat` address; 0 is null. -/
abbrev HANDLE := Nat

/-- Address of an `extern "system" fn` used as a window procedure. -/
abbrev WndProcPtr := Nat

/-- `WNDPROC = Option<extern "system" fn(..)>` from `win_raw.rs`. -/
abbrev WNDPROC := Option WndProcPtr

/-- A `*const u8` C-string pointer: null, or the address of the first
byte of the string `s` (the source never offsets such a pointer, so the
pointee determines the pointer value). -/
inductive CPtr where
  | null : CPtr
  | strPtr : String → CPtr
deriving DecidableEq

abbrev LPCSTR := CPtr

/-- Window-style bit constants from `win_raw.rs`. -/
def WS_BORDER : UINT := 0x00800000

def WS_CAPTION : UINT := 0x00C00000

def WS_MAXIMIZEBOX : UINT := 0x00010000

def WS_MINIMIZEBOX : UINT := 0x00020000

def WS_OVERLAPPED : UINT := 0x00000000

def WS_SIZEBOX : UINT := 0x00040000

def WS_SYSMENU : UINT := 0x00080000

/-- `WS_OVERLAPPEDWINDOW` from `win_raw.rs`: the or of the component
style bits. -/
def WS_OVERLAPPEDWINDOW : UINT :=
  WS_OVERLAPPED ||| WS_CAPTION ||| WS_SYSMENU ||| WS_SIZEBOX |||
    WS_MINIMIZEBOX ||| WS_MAXIMIZEBOX

/-! ### Handle wrappers (`win_wrapper!` macro instances in `lib.rs`) -/

/-- Wrapper of `DWORD` produced by `win_wrapper!(ErrorCode, DWORD)`. -/
structure ErrorCode where
  val : DWORD
deriving DecidableEq

def ErrorCode.new (v : DWORD) : ErrorCode := ⟨v⟩

def ErrorCode.get (x : ErrorCode) : DWORD := x.val

/-- Wrapper of `ATOM` produced by `win_wrapper!(WinClassAtom, ATOM)`. -/
structure WinClassAtom where
  val : ATOM
deriving DecidableEq

def WinClassAtom.new (v : ATOM) : WinClassAtom := ⟨v⟩

def WinClassAtom.get (x : WinClassAtom) : ATOM := x.val

/-- Wrapper of `HINSTANCE` produced by `win_wrapper!(HInstance, HINSTANCE)`. -/
structure HInstance where
  val : HANDLE
deriving DecidableEq

def HInstance.new (v : HANDLE) : HInstance := ⟨v⟩

def HInstance.get (x : HInstance) : HANDLE := x.val

/-- Wrapper of `HWND` produced by `win_wrapper!(HWindow, HWND)`. -/
structure HWindow where
  val : HANDLE
deriving DecidableEq

def HWindow.new (v : HANDLE) : HWindow := ⟨v⟩

def HWindow.get (x : HWindow) : HANDLE := x.val

/-- Wrapper of `WNDPROC` produced by `win_wrapper!(WinProc, WNDPROC)`. -/
structure WinProc where
  val : WNDPROC
deriving DecidableEq

def WinProc.new (v : WNDPROC) : WinProc := ⟨v⟩

def WinProc.get (x : WinProc) : WNDPROC := x.val

/-- Wrapper of `HICON` produced by `win_wrapper!(HIcon, HICON)`. -/
structure HIcon where
  val : HANDLE
deriving DecidableEq

def HIcon.new (v : HANDLE) : HIcon := ⟨v⟩

def HIcon.get (x : HIcon) : HANDLE := x.val

/-- Wrapper of `HCURSOR` produced by `win_wrapper!(HCursor, HCURSOR)`. -/
structure HCursor where
  val : HANDLE
deriving DecidableEq

def HCursor.new (v : HANDLE) : HCursor := ⟨v⟩

def HCursor.get (x : HCursor) : HANDLE := x.val

/-- Wrapper of `HBRUSH` produced by `win_wrapper!(HBrush, HBRUSH)`. -/
structure HBrush where
  val : HANDLE
deriving DecidableEq

def HBrush.new (v : HANDLE) : HBrush := ⟨v⟩

def HBrush.get (x : HBrush) : HANDLE := x.val

/-! ### The null-terminated string wrapper `LPCString` -/

/-- `LPCString(Option<String>)` from `lib.rs`: either absent (used to
pass a null pointer) or a present string. -/
structure LPCString where
  val : Option String
deriving DecidableEq

/-- `LPCString::null()`: the absent variant. -/
def LPCString.null : LPCString := ⟨none⟩

/-- `LPCString::new(val)`: reads the last character of the input
(`val.chars().last().unwrap()`, which panics on the empty string,
modelled by `none`); appends one `'\x00'` when that character is not the
null character; stores the result as the present variant. -/
def LPCString.new (val : String) : Option LPCString :=
  match val.data.getLast? with
  | none => none
  | some last_char =>
    if last_char ≠ '\x00' then some ⟨some (val.push '\x00')⟩
    else some ⟨some val⟩

/-- `LPCString::as_cstr(&self)`: a pointer to the first byte of the
stored string for the present variant, the null pointer for absent. -/
def LPCString.as_cstr (s : LPCString) : CPtr :=
  match s.val with
  | some v => CPtr.strPtr v
  | none => CPtr.null

/-- Number of trailing null characters of a string (how many times the
string ends in the terminator). -/
def trailingNulls (s : String) : Nat :=
  (s.data.reverse.takeWhile (fun c => c = '\x00')).length

/-! ### The safe descriptor `WinClass` and the raw `WNDCLASSEXA` -/

/-- `WinClass` from `lib.rs`: the safe window-class descriptor. -/
structure WinClass where
  style : UINT
  win_proc : WinProc
  cls_extra : Int
  win_extra : Int
  h_instance : HInstance
  h_icon : HIcon
  h_cursor : HCursor
  h_br_background : HBrush
  menu_name : LPCString
  class_name : LPCString
  h_icon_small : HIcon

/-- `impl Default for WinClass`: all fields zero, none or null. -/
def WinClass.default : WinClass where
  style := 0
  win_proc := WinProc.new none
  cls_extra := 0
  win_extra := 0
  h_instance := ⟨0⟩
  h_icon := ⟨0⟩
  h_cursor := ⟨0⟩
  h_br_background := ⟨0⟩
  menu_name := LPCString.null
  class_name := LPCString.null
  h_icon_small := ⟨0⟩

/-- `WNDCLASSEXA` from `win_raw.rs`: the raw, ABI-exact descriptor. -/
structure WNDCLASSEXA where
  cbSize : UINT
  style : UINT
  lpfnWndProc : WNDPROC
  cbClsExtra : Int
  cbWndExtra : Int
  hInstance : HANDLE
  hIcon : HANDLE
  hCursor : HANDLE
  hbrBackground : HANDLE
  lpszMenuName : LPCSTR
  lpszClassName : LPCSTR
  hIconSm : HANDLE
deriving DecidableEq

/-- Round `off` up to the next multiple of the alignment `a`. -/
def alignTo (off a : Nat) : Nat := ((off + a - 1) / a) * a

/-- `repr(C)` struct size from the (size, alignment) pairs of the
fields in declaration order: place each field at its aligned offset,
then pad the total to the alignment of the whole struct. -/
def structSize (fields : List (Nat × Nat)) : Nat :=
  let last := fields.foldl (fun off f => alignTo off f.2 + f.1) 0
  alignTo last (fields.foldl (fun m f => max m f.2) 1)

/-- (size, alignment) of each `WNDCLASSEXA` field on x86-64 Windows, in
declaration order: `UINT`/`i32` are 4-byte, every pointer (`WNDPROC`,
the five handles, the two `LPCSTR`) is 8-byte. -/
def WNDCLASSEXA.layout : List (Nat × Nat) :=
  [(4, 4), (4, 4), (8, 8), (4, 4), (4, 4), (8, 8), (8, 8), (8, 8),
    (8, 8), (8, 8), (8, 8), (8, 8)]

/-- `mem::size_of::<WNDCLASSEXA>()`: the byte size of the raw struct. -/
def WNDCLASSEXA.byteSize : Nat := structSize WNDCLASSEXA.layout

/-- `WNDCLASSEXA::new(wrapper)` from `win_raw.rs`: field-by-field copy
from the safe descriptor, with `cbSize` set to the struct byte size. -/
def WNDCLASSEXA.new (wrapper : WinClass) : WNDCLASSEXA where
  cbSize := WNDCLASSEXA.byteSize
  style := wrapper.style
  lpfnWndProc := wrapper.win_proc.get
  cbClsExtra := wrapper.cls_extra
  cbWndExtra := wrapper.win_extra
  hInstance := wrapper.h_instance.get
  hIcon := wrapper.h_icon.get
  hCursor := wrapper.h_cursor.get
  hbrBackground := wrapper.h_br_background.get
  lpszMenuName := wrapper.menu_name.as_cstr
  lpszClassName := wrapper.class_name.as_cstr
  hIconSm := wrapper.h_icon_small.get

/-- `WinClass::convert(&self)`: delegates to `WNDCLASSEXA::new`; the
`println!` diagnostic is incidental and elided. -/
def WinClass.convert (c : WinClass) : WNDCLASSEXA := WNDCLASSEXA.new c

/-! ### The native environment and the operation functions -/

/-- Argument record of the raw `CreateWindowExA` call, in the parameter
order of the extern declaration in `win_raw.rs`. -/
structure CreateWindowArgs where
  dwExStyle : DWORD
  lpClassName : LPCSTR
  lpWindowName : LPCSTR
  dwStyle : DWORD
  x : Int
  y : Int
  nWidth : Int
  nHeight : Int
  hWndParent : HANDLE
  hMenu : HANDLE
  hInstance : HANDLE
  lpParam : HANDLE
deriving DecidableEq

/-- The external Win32 entry points declared in `win_raw.rs`, as an
environment: each field gives the raw value the native call returns for
given arguments. -/
structure NativeEnv where
  getLastError : DWORD
  registerClassExA : WNDCLASSEXA → ATOM
  getModuleHandleA : LPCSTR → HANDLE
  createWindowExA : CreateWindowArgs → HANDLE

/-- `get_last_error()` from `lib.rs`: wraps the raw `GetLastError`
value in an `ErrorCode`; no failure path. -/
def get_last_error (env : NativeEnv) : ErrorCode :=
  ErrorCode.new env.getLastError

/-- `register_class(&WinClass)` from `lib.rs`: converts the descriptor,
calls the raw `RegisterClassExA`, and translates a zero atom into a
failure carrying `get_last_error()`. The descriptor is taken by shared
reference in the source; the embedding returns it alongside. -/
def register_class (env : NativeEnv) (cls : WinClass) :
    Except ErrorCode WinClassAtom × WinClass :=
  let win_class_internal := cls.convert
  let ret := WinClassAtom.new (env.registerClassExA win_class_internal)
  if ret.get = 0 then (Except.error (get_last_error env), cls)
  else (Except.ok ret, cls)

/-- `get_module_handle()` from `lib.rs`: calls the raw
`GetModuleHandleA` with a null module-name pointer and translates a
null handle into a failure carrying `get_last_error()`. -/
def get_module_handle (env : NativeEnv) : Except ErrorCode HInstance :=
  let ret := env.getModuleHandleA CPtr.null
  if ret = 0 then Except.error (get_last_error env)
  else Except.ok (HInstance.new ret)

/-- The argument record `create_window` passes to the raw
`CreateWindowExA` call: extended style 0, the two name pointers from
the caller, `WS_OVERLAPPEDWINDOW`, position (20, 20), size 80 by 80,
null parent, null menu, the caller instance handle, null parameter. -/
def create_window_args (class_name window_name : LPCString)
    (h_instance : HInstance) : CreateWindowArgs where
  dwExStyle := 0
  lpClassName := class_name.as_cstr
  lpWindowName := window_name.as_cstr
  dwStyle := WS_OVERLAPPEDWINDOW
  x := 20
  y := 20
  nWidth := 80
  nHeight := 80
  hWndParent := 0
  hMenu := 0
  hInstance := h_instance.get
  lpParam := 0

/-- `create_window(..)` from `lib.rs`: calls the raw `CreateWindowExA`
on `create_window_args` and translates a null window handle into a
failure carrying `get_last_error()`; the `println!` is elided. -/
def create_window (env : NativeEnv) (class_name window_name : LPCString)
    (h_instance : HInstance) : Except ErrorCode HWindow :=
  let ret := env.createWindowExA
    (create_window_args class_name window_name h_instance)
  if ret = 0 then Except.error (get_last_error env)
  else Except.ok (HWindow.new ret)

/-! ### Helper lemmas -/

theorem data_push (s : String) (c : Char) : (s.push c).data = s.data ++ [c] :=
  rfl

theorem getLast?_data_push (s : String) (c : Char) :
    (s.push c).data.getLast? = some c := by
  rw [data_push]; simp

theorem one_le_trailingNulls (s : String)
    (h : s.data.getLast? = some '\x00') : 1 ≤ trailingNulls s := by
  unfold trailingNulls
  rw [← List.head?_reverse] at h
  cases hr : s.data.reverse with
  | nil => rw [hr] at h; simp at h
  | cons a t =>
    rw [hr] at h
    simp only [List.head?_cons, Option.some.injEq] at h
    subst h
    simp [List.takeWhile_cons]

theorem register_class_snd (env : NativeEnv) (cls : WinClass) :
    (register_class env cls).2 = cls := by
  simp only [register_class]
  split <;> rfl

/-! ### Claim theorems -/

/-- Claim C1: each of `register_class`, `get_module_handle` and
`create_window` fails exactly when the raw native call returns its zero
sentinel (zero atom, null handle, null pointer); on failure the result
carries the error code obtained by `get_last_error`, and on success it
returns the raw result wrapped in the corresponding handle type. Stated
as the defining equation of each operation in terms of the raw call. -/
theorem native_call_result_translation (env : NativeEnv) (cls : WinClass)
    (cn wn : LPCString) (hi : HInstance) :
    ((register_class env cls).1 =
      if env.registerClassExA cls.convert = 0
      then Except.error (get_last_error env)
      else Except.ok (WinClassAtom.new (env.registerClassExA cls.convert)))
    ∧ (get_module_handle env =
      if env.getModuleHandleA CPtr.null = 0
      then Except.error (get_last_error env)
      else Except.ok (HInstance.new (env.getModuleHandleA CPtr.null)))
    ∧ (create_window env cn wn hi =
      if env.createWindowExA (create_window_args cn wn hi) = 0
      then Except.error (get_last_error env)
      else Except.ok (HWindow.new
        (env.createWindowExA (create_window_args cn wn hi)))) := by
  refine ⟨?_, ?_, ?_⟩
  · simp only [register_class, WinClassAtom.new, WinClassAtom.get]
    split <;> rfl
  · rfl
  · rfl

/-- Claim C2: `convert` copies every field of the safe descriptor
one-to-one into the raw struct (handles via `get`, text fields via
`as_cstr`, the procedure via its raw optional form) and sets the size
field to the raw struct byte size; on the all-default descriptor it
yields the all-zero/null/none raw struct with that size field. -/
theorem convert_copies_fields (cls : WinClass) :
    ((cls.convert).cbSize = WNDCLASSEXA.byteSize
    ∧ (cls.convert).style = cls.style
    ∧ (cls.convert).lpfnWndProc = cls.win_proc.get
    ∧ (cls.convert).cbClsExtra = cls.cls_extra
    ∧ (cls.convert).cbWndExtra = cls.win_extra
    ∧ (cls.convert).hInstance = cls.h_instance.get
    ∧ (cls.convert).hIcon = cls.h_icon.get
    ∧ (cls.convert).hCursor = cls.h_cursor.get
    ∧ (cls.convert).hbrBackground = cls.h_br_background.get
    ∧ (cls.convert).lpszMenuName = cls.menu_name.as_cstr
    ∧ (cls.convert).lpszClassName = cls.class_name.as_cstr
    ∧ (cls.convert).hIconSm = cls.h_icon_small.get)
    ∧ WinClass.default.convert =
      { cbSize := WNDCLASSEXA.byteSize, style := 0, lpfnWndProc := none,
        cbClsExtra := 0, cbWndExtra := 0, hInstance := 0, hIcon := 0,
        hCursor := 0, hbrBackground := 0, lpszMenuName := CPtr.null,
        lpszClassName := CPtr.null, hIconSm := 0 } :=
  ⟨⟨rfl, rfl, rfl, rfl, rfl, rfl, rfl, rfl, rfl, rfl, rfl, rfl⟩, rfl⟩

/-- Claim C3 counterexample: the input `"a\x00\x00"` already ends in a
null terminator, `LPCString.new` stores it unchanged, and the stored
form ends in two trailing terminators — not exactly one. -/
theorem terminated_input_two_trailing_nulls :
    ("a\x00\x00").data.getLast? = some '\x00'
    ∧ LPCString.new "a\x00\x00" = some ⟨some "a\x00\x00"⟩
    ∧ trailingNulls "a\x00\x00" = 2 := by
  refine ⟨by decide, rfl, by decide⟩

/-- Claim C3 (amended): for every text input that already ends in a
null terminator, `LPCString.new` stores the input unchanged (it appends
nothing), so the stored form ends in at least one terminator and in
exactly as many trailing terminators as the input; in particular an
input with exactly one trailing terminator is not double-terminated. -/
theorem new_terminated_input_unchanged (s : String)
    (h : s.data.getLast? = some '\x00') :
    LPCString.new s = some ⟨some s⟩ ∧ 1 ≤ trailingNulls s := by
  refine ⟨?_, one_le_trailingNulls s h⟩
  unfold LPCString.new
  rw [h]
  simp

/-- Witness for the amended C3 theorem at the input `"hi\x00"`. -/
theorem new_terminated_input_unchanged_witness :
    LPCString.new "hi\x00" = some ⟨some "hi\x00"⟩
    ∧ 1 ≤ trailingNulls "hi\x00" :=
  new_terminated_input_unchanged "hi\x00" (by decide)

/-- Claim C4: for every non-empty input whose last character is not the
null character, `LPCString.new` stores exactly the input followed by
one null terminator, as the present variant. -/
theorem new_appends_one_terminator (s : String) (c : Char)
    (h : s.data.getLast? = some c) (hc : c ≠ '\x00') :
    LPCString.new s = some ⟨some (s.push '\x00')⟩
    ∧ (s.push '\x00').data = s.data ++ ['\x00'] := by
  refine ⟨?_, data_push s _⟩
  unfold LPCString.new
  rw [h]
  simp [hc]

/-- Witness for the C4 theorem at the input `"Test"`. -/
theorem new_appends_one_terminator_witness :
    LPCString.new "Test" = some ⟨some (String.push "Test" '\x00')⟩
    ∧ (String.push "Test" '\x00').data = ("Test").data ++ ['\x00'] :=
  new_appends_one_terminator "Test" 't' (by decide) (by decide)

/-- Claim C5: `LPCString.new` on the empty string reads a nonexistent
last character (`chars().last().unwrap()`) and panics; the embedding
returns `none` exactly on the panic path, so the empty string produces
no wrapper. -/
theorem new_empty_string_panics : LPCString.new "" = none := rfl

/-- Claim C6: `as_cstr` returns the null pointer exactly when the
wrapper is the absent variant `LPCString.null`, and on the present
variant it returns the pointer to the first byte of the stored text. -/
theorem as_cstr_null_iff_absent (s : LPCString) :
    (s.as_cstr = CPtr.null ↔ s = LPCString.null)
    ∧ (∀ v, s.val = some v → s.as_cstr = CPtr.strPtr v) := by
  obtain ⟨val⟩ := s
  cases val <;> simp [LPCString.as_cstr, LPCString.null]

/-- Witness for the C6 theorem at the present wrapper of `"a\x00"`. -/
theorem as_cstr_null_iff_absent_witness :
    LPCString.as_cstr ⟨some "a\x00"⟩ = CPtr.strPtr "a\x00" :=
  (as_cstr_null_iff_absent ⟨some "a\x00"⟩).2 "a\x00" rfl

/-- Claim C7: `create_window` always invokes the raw `CreateWindowExA`
with extended style 0, style `WS_OVERLAPPEDWINDOW`, position (20, 20),
size 80 by 80, null parent, null menu and null creation parameter; only
the class-name pointer, window-name pointer and instance handle come
from the caller. -/
theorem create_window_hardcoded_args (env : NativeEnv)
    (cn wn : LPCString) (hi : HInstance) :
    (create_window env cn wn hi =
      if env.createWindowExA (create_window_args cn wn hi) = 0
      then Except.error (get_last_error env)
      else Except.ok (HWindow.new
        (env.createWindowExA (create_window_args cn wn hi))))
    ∧ (create_window_args cn wn hi).dwExStyle = 0
    ∧ (create_window_args cn wn hi).dwStyle = WS_OVERLAPPEDWINDOW
    ∧ (create_window_args cn wn hi).x = 20
    ∧ (create_window_args cn wn hi).y = 20
    ∧ (create_window_args cn wn hi).nWidth = 80
    ∧ (create_window_args cn wn hi).nHeight = 80
    ∧ (create_window_args cn wn hi).hWndParent = 0
    ∧ (create_window_args cn wn hi).hMenu = 0
    ∧ (create_window_args cn wn hi).lpParam = 0
    ∧ (create_window_args cn wn hi).lpClassName = cn.as_cstr
    ∧ (create_window_args cn wn hi).lpWindowName = wn.as_cstr
    ∧ (create_window_args cn wn hi).hInstance = hi.get :=
  ⟨rfl, rfl, rfl, rfl, rfl, rfl, rfl, rfl, rfl, rfl, rfl, rfl, rfl⟩

/-- Claim C8: for every handle wrapper kind, `get` after `new` returns
the original raw value; `new` is a total function on the raw type, so
construction never fails. -/
theorem wrapper_get_new (a : DWORD) (b : ATOM) (c d : HANDLE)
    (e : WNDPROC) (f g k : HANDLE) :
    (ErrorCode.new a).get = a
    ∧ (WinClassAtom.new b).get = b
    ∧ (HInstance.new c).get = c
    ∧ (HWindow.new d).get = d
    ∧ (WinProc.new e).get = e
    ∧ (HIcon.new f).get = f
    ∧ (HCursor.new g).get = g
    ∧ (HBrush.new k).get = k :=
  ⟨rfl, rfl, rfl, rfl, rfl, rfl, rfl, rfl⟩

/-- Claim C9: `register_class`, and the `convert` it invokes, leave
every field of the safe descriptor unchanged: the descriptor threaded
through the call equals the input, field by field. -/
theorem register_class_preserves_descriptor (env : NativeEnv)
    (cls : WinClass) :
    (register_class env cls).2 = cls
    ∧ (register_class env cls).2.style = cls.style
    ∧ (register_class env cls).2.win_proc = cls.win_proc
    ∧ (register_class env cls).2.cls_extra = cls.cls_extra
    ∧ (register_class env cls).2.win_extra = cls.win_extra
    ∧ (register_class env cls).2.h_instance = cls.h_instance
    ∧ (register_class env cls).2.h_icon = cls.h_icon
    ∧ (register_class env cls).2.h_cursor = cls.h_cursor
    ∧ (register_class env cls).2.h_br_background = cls.h_br_background
    ∧ (register_class env cls).2.menu_name = cls.menu_name
    ∧ (register_class env cls).2.class_name = cls.class_name
    ∧ (register_class env cls).2.h_icon_small = cls.h_icon_small := by
  have h := register_class_snd env cls
  rw [h]
  exact ⟨rfl, rfl, rfl, rfl, rfl, rfl, rfl, rfl, rfl, rfl, rfl, rfl⟩

/-- Claim C10: every wrapper `LPCString.new` produces is the present
variant whose stored string ends in at least one null character, and
`as_cstr` on it never returns the null pointer. -/
theorem new_always_present_terminated (s : String) (w : LPCString)
    (h : LPCString.new s = some w) :
    (∃ v, w.val = some v ∧ v.data.getLast? = some '\x00')
    ∧ w.as_cstr ≠ CPtr.null := by
  unfold LPCString.new at h
  split at h
  · exact absurd h (by simp)
  · rename_i c hl
    split at h
    · obtain rfl := Option.some.inj h
      exact ⟨⟨s.push '\x00', rfl, getLast?_data_push s _⟩,
        by simp [LPCString.as_cstr]⟩
    · rename_i hc
      push_neg at hc
      subst hc
      obtain rfl := Option.some.inj h
      exact ⟨⟨s, rfl, hl⟩, by simp [LPCString.as_cstr]⟩

/-- Witness for the C10 theorem at the input `"ab"`. -/
theorem new_always_present_terminated_witness :
    (∃ v, (LPCString.mk (some "ab\x00")).val = some v
      ∧ v.data.getLast? = some '\x00')
    ∧ (LPCString.mk (some "ab\x00")).as_cstr ≠ CPtr.null :=
  new_always_present_terminated "ab" ⟨some "ab\x00"⟩ rfl

end Win
